import Mathlib

/-!
Shallow embedding of the BMS prototype (src/SafetyManager.cpp, src/BMS.cpp,
inc/Constants.h, inc/BatteryCell.h, inc/BMS_States.h).

C++ `float` quantities are modelled as exact rationals `ℚ`: every constant in
Constants.h is a short decimal, and the claims under verification concern
threshold comparisons, clamping and latch logic, not floating-point rounding.
Decimal constants are written with `mkRat` (e.g. `mkRat 28 10` for `2.80f`)
so that concrete states kernel-evaluate.  The fixed-size
`std::array<BatteryCell, NUM_CELLS>` is modelled as a `List BatteryCell`; the
range-for loops with `break` in `SafetyManager::evaluate` compute exactly
`List.any` of the loop predicate.
-/

/-- inc/BMS_States.h: the four severity tiers. -/
inductive SystemState
  | NORMAL
  | WARNING
  | CRITICAL
  | FAULT
  deriving DecidableEq, Repr

/-- inc/BatteryCell.h: id, voltage (V), temperature (°C). -/
structure BatteryCell where
  id : Nat
  voltage : ℚ
  temperature : ℚ
  deriving DecidableEq, Repr

-- inc/Constants.h ------------------------------------------------------------

def NUM_CELLS : Nat := 4
def NOMINAL_CAPACITY_MAH : ℚ := 3000
def CHARGE_EFFICIENCY : ℚ := mkRat 98 100
def SOC_FULL_THRESHOLD_PERCENT : ℚ := 98
def SOC_EMPTY_THRESHOLD_PERCENT : ℚ := 10

def MIN_VOLTAGE_NORMAL : ℚ := 3
def MIN_VOLTAGE_WARNING : ℚ := mkRat 28 10
def MIN_VOLTAGE_CRITICAL : ℚ := mkRat 25 10
def MIN_VOLTAGE_FAULT : ℚ := 1
def MAX_VOLTAGE_NORMAL : ℚ := mkRat 42 10
def MAX_VOLTAGE_WARNING : ℚ := mkRat 43 10
def MAX_VOLTAGE_CRITICAL : ℚ := mkRat 44 10
def MAX_VOLTAGE_FAULT : ℚ := mkRat 48 10

def MIN_TEMP_NORMAL : ℚ := 0
def MIN_TEMP_WARNING : ℚ := -5
def MIN_TEMP_CRITICAL : ℚ := -10
def MIN_TEMP_FAULT : ℚ := -20
def MAX_TEMP_NORMAL : ℚ := 45
def MAX_TEMP_WARNING : ℚ := 50
def MAX_TEMP_CRITICAL : ℚ := 60
def MAX_TEMP_FAULT : ℚ := 70

def IDLE_CURRENT_THRESHOLD_A : ℚ := mkRat 5 100
def MAX_DISCHARGE_CURRENT_NORMAL_A : ℚ := 10
def MAX_DISCHARGE_CURRENT_WARNING_A : ℚ := 15
def MAX_DISCHARGE_CURRENT_CRITICAL_A : ℚ := 20
def MAX_CHARGE_CURRENT_NORMAL_A : ℚ := 2
def MAX_CHARGE_CURRENT_WARNING_A : ℚ := 3
def MAX_CHARGE_CURRENT_CRITICAL_A : ℚ := 4

def SOH_THRESHOLD_WARNING : ℚ := 80
def SOH_THRESHOLD_CRITICAL : ℚ := 60

-- src/SafetyManager.cpp: range predicates ------------------------------------

def isVoltageNormal (voltage : ℚ) : Bool :=
  decide (voltage ≥ MIN_VOLTAGE_NORMAL) && decide (voltage ≤ MAX_VOLTAGE_NORMAL)

def isVoltageWarning (voltage : ℚ) : Bool :=
  (decide (voltage ≥ MIN_VOLTAGE_WARNING) && decide (voltage < MIN_VOLTAGE_NORMAL)) ||
  (decide (voltage > MAX_VOLTAGE_NORMAL) && decide (voltage ≤ MAX_VOLTAGE_WARNING))

def isVoltageCritical (voltage : ℚ) : Bool :=
  (decide (voltage ≥ MIN_VOLTAGE_CRITICAL) && decide (voltage < MIN_VOLTAGE_WARNING)) ||
  (decide (voltage > MAX_VOLTAGE_WARNING) && decide (voltage ≤ MAX_VOLTAGE_CRITICAL))

def isVoltageFault (voltage : ℚ) : Bool :=
  decide (voltage < MIN_VOLTAGE_FAULT) || decide (voltage > MAX_VOLTAGE_FAULT)

def isTemperatureNormal (temperature : ℚ) : Bool :=
  decide (temperature ≥ MIN_TEMP_NORMAL) && decide (temperature ≤ MAX_TEMP_NORMAL)

def isTemperatureWarning (temperature : ℚ) : Bool :=
  (decide (temperature ≥ MIN_TEMP_WARNING) && decide (temperature < MIN_TEMP_NORMAL)) ||
  (decide (temperature > MAX_TEMP_NORMAL) && decide (temperature ≤ MAX_TEMP_WARNING))

def isTemperatureCritical (temperature : ℚ) : Bool :=
  (decide (temperature ≥ MIN_TEMP_CRITICAL) && decide (temperature < MIN_TEMP_WARNING)) ||
  (decide (temperature > MAX_TEMP_WARNING) && decide (temperature ≤ MAX_TEMP_CRITICAL))

def isTemperatureFault (temperature : ℚ) : Bool :=
  decide (temperature < MIN_TEMP_FAULT) || decide (temperature > MAX_TEMP_FAULT)

def isCurrentNormal (current : ℚ) : Bool :=
  if current > IDLE_CURRENT_THRESHOLD_A then
    decide (current ≤ MAX_CHARGE_CURRENT_NORMAL_A)
  else if current < -IDLE_CURRENT_THRESHOLD_A then
    decide (current ≥ -MAX_DISCHARGE_CURRENT_NORMAL_A)
  else
    true

def isCurrentWarning (current : ℚ) : Bool :=
  if current > IDLE_CURRENT_THRESHOLD_A then
    decide (current > MAX_CHARGE_CURRENT_NORMAL_A) && decide (current ≤ MAX_CHARGE_CURRENT_WARNING_A)
  else if current < -IDLE_CURRENT_THRESHOLD_A then
    decide (current < -MAX_DISCHARGE_CURRENT_NORMAL_A) && decide (current ≥ -MAX_DISCHARGE_CURRENT_WARNING_A)
  else
    false

def isCurrentCritical (current : ℚ) : Bool :=
  if current > IDLE_CURRENT_THRESHOLD_A then
    decide (current > MAX_CHARGE_CURRENT_WARNING_A) && decide (current ≤ MAX_CHARGE_CURRENT_CRITICAL_A)
  else if current < -IDLE_CURRENT_THRESHOLD_A then
    decide (current < -MAX_DISCHARGE_CURRENT_WARNING_A) && decide (current ≥ -MAX_DISCHARGE_CURRENT_CRITICAL_A)
  else
    false

def isSoHNormal (soh : ℚ) : Bool := decide (soh ≥ SOH_THRESHOLD_WARNING)

def isSoHWarning (soh : ℚ) : Bool :=
  decide (soh ≥ SOH_THRESHOLD_CRITICAL) && decide (soh < SOH_THRESHOLD_WARNING)

def isSoHCritical (soh : ℚ) : Bool := decide (soh < SOH_THRESHOLD_CRITICAL)

/-- The `proposedState` computed by `SafetyManager::evaluate`
(src/SafetyManager.cpp lines 164-201): FAULT if any cell is in a fault band,
else CRITICAL if pack current / SoH / any cell is in a critical band, else
WARNING if pack current / SoH / any cell is in a warning band, else NORMAL.
The `break` loops are `List.any`. -/
def proposedStateOf (cells : List BatteryCell) (packCurrent stateOfHealth_percent : ℚ) :
    SystemState :=
  if cells.any (fun cell => isVoltageFault cell.voltage || isTemperatureFault cell.temperature) then
    SystemState.FAULT
  else if isCurrentCritical packCurrent || isSoHCritical stateOfHealth_percent ||
      cells.any (fun cell => isVoltageCritical cell.voltage || isTemperatureCritical cell.temperature) then
    SystemState.CRITICAL
  else if isCurrentWarning packCurrent || isSoHWarning stateOfHealth_percent ||
      cells.any (fun cell => isVoltageWarning cell.voltage || isTemperatureWarning cell.temperature) then
    SystemState.WARNING
  else
    SystemState.NORMAL

/-- `SafetyManager::evaluate`'s effect on `m_currentState`, plus whether a
state-transition message is printed: the stored state is assigned `proposed`
exactly when it differs from the previous value. -/
def evaluate (m_currentState : SystemState) (cells : List BatteryCell)
    (packCurrent stateOfHealth_percent : ℚ) : SystemState × Bool :=
  let proposed := proposedStateOf cells packCurrent stateOfHealth_percent
  if proposed ≠ m_currentState then (proposed, true) else (m_currentState, false)

/-- A cell with all readings in the normal bands (3.7 V, 25 °C). -/
def normalCell (i : Nat) : BatteryCell := ⟨i, mkRat 37 10, 25⟩

/-- A 4-cell pack (NUM_CELLS = 4) of normal cells. -/
def normalPack : List BatteryCell := [normalCell 0, normalCell 1, normalCell 2, normalCell 3]

-- src/BMS.cpp ----------------------------------------------------------------

/-- The mutable state of the `BMS` class (inc/BMS.h), including the
`SafetyManager`'s `m_currentState`. -/
structure BMSState where
  cells : List BatteryCell
  packCurrent : ℚ
  accumulatedCharge_mAh : ℚ
  stateOfCharge_percent : ℚ
  stateOfHealth_percent : ℚ
  chargeCycles : ℚ
  wasFull : Bool
  wasEmpty : Bool
  isChargingFlag : Bool
  currentState : SystemState
  deriving DecidableEq, Repr

/-- `BMS::updateSoC` (src/BMS.cpp lines 42-71): coulomb counting with the
charging-efficiency derating, clamping of the accumulator to
`[0, NOMINAL_CAPACITY_MAH]` and of the derived SoC to `[0, 100]`. -/
def updateSoC (deltaTime_s : ℚ) (s : BMSState) : BMSState :=
  let current_mA := s.packCurrent * 1000
  let charge_change_mAh := current_mA * (deltaTime_s / 3600)
  let charge_change_mAh :=
    if current_mA > IDLE_CURRENT_THRESHOLD_A * 1000 then charge_change_mAh * CHARGE_EFFICIENCY
    else charge_change_mAh
  let acc := s.accumulatedCharge_mAh + charge_change_mAh
  let acc :=
    if acc > NOMINAL_CAPACITY_MAH then NOMINAL_CAPACITY_MAH
    else if acc < 0 then 0
    else acc
  let soc := acc / NOMINAL_CAPACITY_MAH * 100
  let soc := if soc > 100 then 100 else if soc < 0 then 0 else soc
  { s with accumulatedCharge_mAh := acc, stateOfCharge_percent := soc }

/-- `BMS::updateSoH` (src/BMS.cpp lines 77-100): latch `wasFull` at
SoC ≥ 98 %, `wasEmpty` at SoC ≤ 10 %; when both latches are set add a
half-cycle (`0.5f = mkRat 1 2`) and reset both; recompute SoH as
`100 − chargeCycles × 0.1` clamped to `[0, 100]`. -/
def updateSoH (s : BMSState) : BMSState :=
  let wasFull := if s.stateOfCharge_percent ≥ SOC_FULL_THRESHOLD_PERCENT then true else s.wasFull
  let wasEmpty := if s.stateOfCharge_percent ≤ SOC_EMPTY_THRESHOLD_PERCENT then true else s.wasEmpty
  let chargeCycles := if wasFull && wasEmpty then s.chargeCycles + mkRat 1 2 else s.chargeCycles
  let wasFull' := if wasFull && wasEmpty then false else wasFull
  let wasEmpty' := if wasFull && wasEmpty then false else wasEmpty
  let soh := 100 - chargeCycles * mkRat 1 10
  let soh := if soh > 100 then 100 else if soh < 0 then 0 else soh
  { s with chargeCycles := chargeCycles, wasFull := wasFull', wasEmpty := wasEmpty',
           stateOfHealth_percent := soh }

/-- `BMS::update` (src/BMS.cpp lines 132-196), with the external sensor
readings passed in as data: overwrite the cell readings and pack current,
update the sticky charging flag, run `updateSoC` then `updateSoH`, then let
`SafetyManager::evaluate` update the stored severity. -/
def update (newCells : List BatteryCell) (packCurrent deltaTime_s : ℚ) (s : BMSState) :
    BMSState :=
  let s := { s with cells := newCells, packCurrent := packCurrent }
  let s :=
    if s.packCurrent > IDLE_CURRENT_THRESHOLD_A then { s with isChargingFlag := true }
    else if s.packCurrent < -IDLE_CURRENT_THRESHOLD_A then { s with isChargingFlag := false }
    else s
  let s := updateSoC deltaTime_s s
  let s := updateSoH s
  { s with currentState := (evaluate s.currentState s.cells s.packCurrent s.stateOfHealth_percent).1 }

/-- The state built by the `BMS` constructor (src/BMS.cpp lines 11-25):
50 % charge seed, 100 % health, no cycles, latches and charging flag clear,
`SafetyManager` starting in NORMAL, cells initialised with dummy readings. -/
def initBMS : BMSState where
  cells := [⟨0, 0, 0⟩, ⟨1, 0, 0⟩, ⟨2, 0, 0⟩, ⟨3, 0, 0⟩]
  packCurrent := 0
  accumulatedCharge_mAh := NOMINAL_CAPACITY_MAH * mkRat 1 2
  stateOfCharge_percent := 50
  stateOfHealth_percent := 100
  chargeCycles := 0
  wasFull := false
  wasEmpty := false
  isChargingFlag := false
  currentState := SystemState.NORMAL

-- helpers used only to state and prove the claims ----------------------------

/-- The clamp pattern used throughout src/BMS.cpp:
`if (x > hi) x = hi; else if (x < lo) x = lo;`. -/
def clampQ (lo hi x : ℚ) : ℚ := if x > hi then hi else if x < lo then lo else x

/-- One `updateSoH` call observing a given state-of-charge value (the value
`updateSoC` just wrote into `m_stateOfCharge_percent`). -/
def stepSoH (s : BMSState) (soc : ℚ) : BMSState :=
  updateSoH { s with stateOfCharge_percent := soc }

/-- A run of `updateSoH` calls observing the given sequence of
state-of-charge values. -/
def runSoH (s : BMSState) (socs : List ℚ) : BMSState := socs.foldl stepSoH s

-- shared lemmas --------------------------------------------------------------

lemma clampQ_mono {lo hi a b : ℚ} (hlohi : lo ≤ hi) (h : a ≤ b) :
    clampQ lo hi a ≤ clampQ lo hi b := by
  unfold clampQ
  split_ifs <;> linarith

lemma updateSoH_cycles_cases (s : BMSState) :
    (updateSoH s).chargeCycles = s.chargeCycles ∨
    (updateSoH s).chargeCycles = s.chargeCycles + mkRat 1 2 := by
  cases hF : s.wasFull <;> cases hE : s.wasEmpty <;>
    unfold updateSoH <;> split_ifs <;> simp_all

lemma updateSoH_soh_eq (s : BMSState) :
    (updateSoH s).stateOfHealth_percent =
      clampQ 0 100 (100 - (updateSoH s).chargeCycles * mkRat 1 10) := rfl

lemma evaluate_fst (m : SystemState) (cells : List BatteryCell) (packCurrent soh : ℚ) :
    (evaluate m cells packCurrent soh).1 = proposedStateOf cells packCurrent soh := by
  unfold evaluate
  by_cases h : proposedStateOf cells packCurrent soh = m <;> simp [h]

lemma evaluate_snd (m : SystemState) (cells : List BatteryCell) (packCurrent soh : ℚ) :
    (evaluate m cells packCurrent soh).2 = true ↔ proposedStateOf cells packCurrent soh ≠ m := by
  unfold evaluate
  by_cases h : proposedStateOf cells packCurrent soh = m <;> simp [h]

lemma clampQ_mem (lo hi x : ℚ) (h : lo ≤ hi) :
    lo ≤ clampQ lo hi x ∧ clampQ lo hi x ≤ hi := by
  unfold clampQ
  split_ifs <;> constructor <;> linarith

/-- The accumulator written by `updateSoC`, read off the definition: the raw
delta, derated when `current_mA` exceeds the idle threshold in mA, added and
clamped. -/
lemma updateSoC_acc_eq (deltaTime_s : ℚ) (s : BMSState) :
    (updateSoC deltaTime_s s).accumulatedCharge_mAh =
      clampQ 0 NOMINAL_CAPACITY_MAH
        (s.accumulatedCharge_mAh +
          (if s.packCurrent * 1000 > IDLE_CURRENT_THRESHOLD_A * 1000 then
            s.packCurrent * 1000 * (deltaTime_s / 3600) * CHARGE_EFFICIENCY
          else s.packCurrent * 1000 * (deltaTime_s / 3600))) := rfl

lemma updateSoC_soc_eq (deltaTime_s : ℚ) (s : BMSState) :
    (updateSoC deltaTime_s s).stateOfCharge_percent =
      clampQ 0 100
        ((updateSoC deltaTime_s s).accumulatedCharge_mAh / NOMINAL_CAPACITY_MAH * 100) := rfl

lemma updateSoH_soh_bounds (s : BMSState) :
    0 ≤ (updateSoH s).stateOfHealth_percent ∧ (updateSoH s).stateOfHealth_percent ≤ 100 := by
  rw [updateSoH_soh_eq]
  exact clampQ_mem 0 100 _ (by norm_num)

/-- The bounds the claims call the accumulator invariant:
`accumulatedCharge ∈ [0, nominalCapacity]`, SoC and SoH in `[0, 100]`. -/
def chargeInv (s : BMSState) : Prop :=
  0 ≤ s.accumulatedCharge_mAh ∧ s.accumulatedCharge_mAh ≤ NOMINAL_CAPACITY_MAH ∧
  0 ≤ s.stateOfCharge_percent ∧ s.stateOfCharge_percent ≤ 100 ∧
  0 ≤ s.stateOfHealth_percent ∧ s.stateOfHealth_percent ≤ 100

lemma updateSoC_bounds (deltaTime_s : ℚ) (s : BMSState) :
    0 ≤ (updateSoC deltaTime_s s).accumulatedCharge_mAh ∧
    (updateSoC deltaTime_s s).accumulatedCharge_mAh ≤ NOMINAL_CAPACITY_MAH ∧
    0 ≤ (updateSoC deltaTime_s s).stateOfCharge_percent ∧
    (updateSoC deltaTime_s s).stateOfCharge_percent ≤ 100 := by
  have h1 := clampQ_mem 0 NOMINAL_CAPACITY_MAH
    (s.accumulatedCharge_mAh +
      (if s.packCurrent * 1000 > IDLE_CURRENT_THRESHOLD_A * 1000 then
        s.packCurrent * 1000 * (deltaTime_s / 3600) * CHARGE_EFFICIENCY
      else s.packCurrent * 1000 * (deltaTime_s / 3600)))
    (by norm_num [NOMINAL_CAPACITY_MAH])
  have h2 := clampQ_mem 0 100
    ((updateSoC deltaTime_s s).accumulatedCharge_mAh / NOMINAL_CAPACITY_MAH * 100) (by norm_num)
  rw [← updateSoC_acc_eq] at h1
  rw [← updateSoC_soc_eq] at h2
  exact ⟨h1.1, h1.2, h2.1, h2.2⟩

/-- One `updateSoH` call at a state-of-charge above the empty threshold, from
a state whose `wasEmpty` latch is clear: no half-cycle fires, `wasEmpty`
stays clear, and `wasFull` latches exactly when the reading is at or above
the full threshold. -/
lemma stepSoH_notEmpty (s : BMSState) (soc : ℚ) (hE : s.wasEmpty = false)
    (hsoc : SOC_EMPTY_THRESHOLD_PERCENT < soc) :
    (stepSoH s soc).wasEmpty = false ∧
    (stepSoH s soc).chargeCycles = s.chargeCycles ∧
    (stepSoH s soc).wasFull =
      (if soc ≥ SOC_FULL_THRESHOLD_PERCENT then true else s.wasFull) := by
  unfold stepSoH updateSoH
  have hne : ¬ soc ≤ SOC_EMPTY_THRESHOLD_PERCENT := not_le.mpr hsoc
  cases hF : s.wasFull <;> dsimp only <;> split_ifs <;> simp_all

/-- One `updateSoH` call at a state-of-charge at or below the empty threshold,
from a state whose `wasFull` latch is set: both latches are momentarily set,
so the call adds the half-cycle and clears both latches. -/
lemma stepSoH_empty_latched (s : BMSState) (e : ℚ) (hF : s.wasFull = true)
    (he : e ≤ SOC_EMPTY_THRESHOLD_PERCENT) :
    (stepSoH s e).chargeCycles = s.chargeCycles + mkRat 1 2 ∧
    (stepSoH s e).wasFull = false ∧
    (stepSoH s e).wasEmpty = false := by
  unfold stepSoH updateSoH
  dsimp only
  split_ifs <;> simp_all

/-- A run of `updateSoH` calls that never sees a reading at or below the empty
threshold, starting with `wasEmpty` clear: `wasEmpty` stays clear, the cycle
counter never moves, and a set `wasFull` latch stays set. -/
lemma runSoH_notEmpty (socs : List ℚ) (s : BMSState) (hE : s.wasEmpty = false)
    (h : ∀ x ∈ socs, SOC_EMPTY_THRESHOLD_PERCENT < x) :
    (runSoH s socs).wasEmpty = false ∧
    (runSoH s socs).chargeCycles = s.chargeCycles ∧
    (s.wasFull = true → (runSoH s socs).wasFull = true) := by
  induction socs generalizing s with
  | nil => exact ⟨hE, rfl, fun hF => hF⟩
  | cons x xs ih =>
    have hx := h x (List.mem_cons_self x xs)
    obtain ⟨h1, h2, h3⟩ := stepSoH_notEmpty s x hE hx
    have hstep : runSoH s (x :: xs) = runSoH (stepSoH s x) xs := rfl
    have hrest := ih (stepSoH s x) h1 (fun y hy => h y (List.mem_cons_of_mem x hy))
    refine ⟨by rw [hstep]; exact hrest.1, by rw [hstep, hrest.2.1, h2], fun hF => ?_⟩
    rw [hstep]
    apply hrest.2.2
    rw [h3]
    split_ifs <;> simp [hF]

/-- A run of `updateSoH` calls whose readings stay strictly between the empty
and full thresholds, from a state with both latches clear: nothing latches
and the cycle counter never moves. -/
lemma runSoH_mid (socs : List ℚ) (s : BMSState) (hF : s.wasFull = false)
    (hE : s.wasEmpty = false)
    (h : ∀ x ∈ socs, SOC_EMPTY_THRESHOLD_PERCENT < x ∧ x < SOC_FULL_THRESHOLD_PERCENT) :
    (runSoH s socs).wasFull = false ∧
    (runSoH s socs).wasEmpty = false ∧
    (runSoH s socs).chargeCycles = s.chargeCycles := by
  induction socs generalizing s with
  | nil => exact ⟨hF, hE, rfl⟩
  | cons x xs ih =>
    obtain ⟨hx1, hx2⟩ := h x (List.mem_cons_self x xs)
    obtain ⟨h1, h2, h3⟩ := stepSoH_notEmpty s x hE hx1
    have hF' : (stepSoH s x).wasFull = false := by
      rw [h3]
      split_ifs with hge
      · exact absurd hx2 (not_lt.mpr hge)
      · exact hF
    have hstep : runSoH s (x :: xs) = runSoH (stepSoH s x) xs := rfl
    have hrest := ih (stepSoH s x) hF' h1 (fun y hy => h y (List.mem_cons_of_mem x hy))
    exact ⟨by rw [hstep]; exact hrest.1, by rw [hstep]; exact hrest.2.1,
      by rw [hstep, hrest.2.2, h2]⟩

lemma runSoH_append (s : BMSState) (l₁ l₂ : List ℚ) :
    runSoH s (l₁ ++ l₂) = runSoH (runSoH s l₁) l₂ := by
  unfold runSoH
  exact List.foldl_append stepSoH s l₁ l₂

-- claim theorems --------------------------------------------------------------

/-- Claim C1 (code bug, evaluation at the failing input): with all four cells
at 3.7 V / 25 °C and state of health 100 %, a pack current of −22 A — a
discharge magnitude beyond `MAX_DISCHARGE_CURRENT_CRITICAL_A = 20` — makes
`SafetyManager::evaluate` propose NORMAL, not CRITICAL as claimed, because
`isCurrentCritical` requires `current ≥ -20`; the same fall-through happens on
the charging side at 5 A > `MAX_CHARGE_CURRENT_CRITICAL_A = 4`. -/
theorem C1_beyond_critical_current_classifies_NORMAL :
    proposedStateOf normalPack (-22) 100 = SystemState.NORMAL ∧
    proposedStateOf normalPack 5 100 = SystemState.NORMAL ∧
    isCurrentCritical (-22) = false ∧ isCurrentCritical 5 = false := by
  refine ⟨by decide, by decide, by decide, by decide⟩

/-- Claim C2 (code bug, evaluation at the failing input): a cell at 2.00 V —
inside `[MIN_VOLTAGE_FAULT, MIN_VOLTAGE_WARNING) = [1.00, 2.80)`, which the
claim says is entirely CRITICAL — with everything else normal classifies
NORMAL because `isVoltageCritical` also requires `v ≥ MIN_VOLTAGE_CRITICAL =
2.50`, leaving `[1.00, 2.50)` in no band; symmetrically 4.60 V in
`(MAX_VOLTAGE_CRITICAL, MAX_VOLTAGE_FAULT] = (4.40, 4.80]` classifies
NORMAL. -/
theorem C2_voltage_band_gap_classifies_NORMAL :
    proposedStateOf [⟨0, 2, 25⟩, normalCell 1, normalCell 2, normalCell 3] 0 100 =
      SystemState.NORMAL ∧
    proposedStateOf [⟨0, mkRat 46 10, 25⟩, normalCell 1, normalCell 2, normalCell 3] 0 100 =
      SystemState.NORMAL ∧
    isVoltageCritical 2 = false ∧ isVoltageCritical (mkRat 46 10) = false := by
  refine ⟨by decide, by decide, by decide, by decide⟩

/-- Claim C3: if any cell's voltage is below `MIN_VOLTAGE_FAULT = 1.00` or
above `MAX_VOLTAGE_FAULT = 4.80`, or its temperature is below
`MIN_TEMP_FAULT = -20` or above `MAX_TEMP_FAULT = 70`, then
`SafetyManager::evaluate` proposes FAULT regardless of the other cells, the
pack current and the state of health. -/
theorem C3_any_fault_cell_forces_FAULT (cells : List BatteryCell) (packCurrent soh : ℚ)
    (h : ∃ c ∈ cells,
      c.voltage < MIN_VOLTAGE_FAULT ∨ c.voltage > MAX_VOLTAGE_FAULT ∨
      c.temperature < MIN_TEMP_FAULT ∨ c.temperature > MAX_TEMP_FAULT) :
    proposedStateOf cells packCurrent soh = SystemState.FAULT := by
  obtain ⟨c, hc, hprop⟩ := h
  have hany :
      cells.any (fun cell => isVoltageFault cell.voltage || isTemperatureFault cell.temperature)
        = true := by
    refine List.any_eq_true.mpr ⟨c, hc, ?_⟩
    simp only [isVoltageFault, isTemperatureFault, Bool.or_eq_true, decide_eq_true_eq]
    tauto
  simp [proposedStateOf, hany]

/-- Witness for C3: one cell at 0.5 V (the others normal) is in the voltage
fault band, and the pack classifies FAULT. -/
theorem C3_any_fault_cell_forces_FAULT_witness :
    (∃ c ∈ [(⟨0, mkRat 1 2, 25⟩ : BatteryCell), normalCell 1, normalCell 2, normalCell 3],
      c.voltage < MIN_VOLTAGE_FAULT ∨ c.voltage > MAX_VOLTAGE_FAULT ∨
      c.temperature < MIN_TEMP_FAULT ∨ c.temperature > MAX_TEMP_FAULT) ∧
    proposedStateOf [⟨0, mkRat 1 2, 25⟩, normalCell 1, normalCell 2, normalCell 3] (-7) 30 =
      SystemState.FAULT :=
  ⟨by decide,
   C3_any_fault_cell_forces_FAULT _ _ _ (by decide)⟩

/-- Claim C9: `SafetyManager::evaluate` is stateless in the stored tier: the
state after the call is the proposed severity, a function of the cell
readings, pack current and state of health only; the prior tier only decides
whether a transition message is reported. -/
theorem C9_evaluate_stateless (p q : SystemState) (cells : List BatteryCell)
    (packCurrent soh : ℚ) :
    (evaluate p cells packCurrent soh).1 = (evaluate q cells packCurrent soh).1 ∧
    (evaluate p cells packCurrent soh).1 = proposedStateOf cells packCurrent soh ∧
    ((evaluate p cells packCurrent soh).2 = true ↔ proposedStateOf cells packCurrent soh ≠ p) := by
  refine ⟨?_, evaluate_fst p cells packCurrent soh, evaluate_snd p cells packCurrent soh⟩
  rw [evaluate_fst, evaluate_fst]

/-- Claim C10: after any single `updateSoH` call the `wasFull` and `wasEmpty`
latches are not both set, and `chargeCycles` grew by exactly 0 or exactly
0.5. -/
theorem C10_latch_reset_and_half_cycle_step (s : BMSState) :
    ((updateSoH s).wasFull && (updateSoH s).wasEmpty) = false ∧
    ((updateSoH s).chargeCycles = s.chargeCycles ∨
      (updateSoH s).chargeCycles = s.chargeCycles + mkRat 1 2) := by
  refine ⟨?_, updateSoH_cycles_cases s⟩
  unfold updateSoH
  cases hF : s.wasFull <;> cases hE : s.wasEmpty <;> split_ifs <;> simp_all

/-- Claim C4: the constructor state satisfies the accumulator bounds; every
single `updateSoC` call re-establishes `accumulatedCharge ∈ [0, nominal]` and
`SoC ∈ [0, 100]` and every `updateSoH` call re-establishes `SoH ∈ [0, 100]`,
for any pack current and any (positive, zero or negative) elapsed time; hence
every full `BMS::update` call leaves all three in bounds, so the bounds hold
after every call of every sequence. -/
theorem C4_accumulators_saturate :
    chargeInv initBMS ∧
    (∀ (deltaTime_s : ℚ) (s : BMSState),
      0 ≤ (updateSoC deltaTime_s s).accumulatedCharge_mAh ∧
      (updateSoC deltaTime_s s).accumulatedCharge_mAh ≤ NOMINAL_CAPACITY_MAH ∧
      0 ≤ (updateSoC deltaTime_s s).stateOfCharge_percent ∧
      (updateSoC deltaTime_s s).stateOfCharge_percent ≤ 100) ∧
    (∀ s : BMSState,
      0 ≤ (updateSoH s).stateOfHealth_percent ∧ (updateSoH s).stateOfHealth_percent ≤ 100) ∧
    (∀ (newCells : List BatteryCell) (packCurrent deltaTime_s : ℚ) (s : BMSState),
      chargeInv (update newCells packCurrent deltaTime_s s)) := by
  refine ⟨?_, updateSoC_bounds, updateSoH_soh_bounds, ?_⟩
  · constructor
    · norm_num [initBMS, NOMINAL_CAPACITY_MAH, Rat.mkRat_eq_div]
    constructor
    · norm_num [initBMS, NOMINAL_CAPACITY_MAH, Rat.mkRat_eq_div]
    norm_num [initBMS]
  · intro newCells packCurrent deltaTime_s s
    simp only [update]
    split_ifs <;>
      exact ⟨(updateSoC_bounds _ _).1, (updateSoC_bounds _ _).2.1, (updateSoC_bounds _ _).2.2.1,
        (updateSoC_bounds _ _).2.2.2, (updateSoH_soh_bounds _).1, (updateSoH_soh_bounds _).2⟩

/-- Claim C5: the charge delta accumulated by `updateSoC` is the raw coulomb
delta `packCurrent·1000·(Δt/3600)` scaled by `CHARGE_EFFICIENCY = 0.98`
exactly when `packCurrent` strictly exceeds `IDLE_CURRENT_THRESHOLD_A =
0.05`, and unscaled otherwise — in particular unscaled at exactly 0.05 A and
for every discharge (negative) current. -/
theorem C5_efficiency_iff_strictly_above_idle (deltaTime_s : ℚ) (s : BMSState) :
    (updateSoC deltaTime_s s).accumulatedCharge_mAh =
      clampQ 0 NOMINAL_CAPACITY_MAH
        (s.accumulatedCharge_mAh +
          (if IDLE_CURRENT_THRESHOLD_A < s.packCurrent then CHARGE_EFFICIENCY else 1) *
            (s.packCurrent * 1000 * (deltaTime_s / 3600))) := by
  rw [updateSoC_acc_eq]
  congr 1
  have h1000 : (0:ℚ) < 1000 := by norm_num
  by_cases h : IDLE_CURRENT_THRESHOLD_A < s.packCurrent
  · rw [if_pos ((mul_lt_mul_right h1000).mpr h), if_pos h]
    ring
  · rw [if_neg (fun hc => h ((mul_lt_mul_right h1000).mp hc)), if_neg h]
    ring

/-- Claim C7: `updateSoH` always writes `SoH = clamp(100 − 0.1·cycles)`, and
from any state already of that shape (which the constructor state is, and
every post-`updateSoH` state is) another `updateSoH` call can only lower or
keep the state of health, because the cycle counter never decreases. -/
theorem C7_soh_never_increases :
    (∀ s : BMSState,
      (updateSoH s).stateOfHealth_percent =
        clampQ 0 100 (100 - (updateSoH s).chargeCycles * mkRat 1 10)) ∧
    (∀ s : BMSState,
      s.stateOfHealth_percent = clampQ 0 100 (100 - s.chargeCycles * mkRat 1 10) →
      (updateSoH s).stateOfHealth_percent ≤ s.stateOfHealth_percent) := by
  refine ⟨updateSoH_soh_eq, fun s hs => ?_⟩
  rw [updateSoH_soh_eq, hs]
  apply clampQ_mono (by norm_num)
  have h10 : (mkRat 1 10 : ℚ) = 1/10 := by norm_num [Rat.mkRat_eq_div]
  have h2 : (mkRat 1 2 : ℚ) = 1/2 := by norm_num [Rat.mkRat_eq_div]
  rcases updateSoH_cycles_cases s with h | h <;> rw [h]
  rw [h10, h2]
  linarith

/-- Claim C6: over a run of `updateSoH` calls from latches-clear state whose
readings stay in the open band, then reach the full threshold (latching
`wasFull`), stay above the empty threshold, then reach the empty threshold:
no half-cycle fires before the call that sees the empty reading; that call —
the one at which both latches are set — adds exactly 0.5 to `chargeCycles`
and clears both latches; the remaining in-band calls leave the counter at
+0.5 and the latches clear; and (second spec scenario) any run that never
reaches the empty threshold from a `wasEmpty`-clear state never moves the
cycle counter at all. -/
theorem C6_half_cycle_fires_exactly_once (s : BMSState) (as bs cs : List ℚ) (f e : ℚ)
    (hF : s.wasFull = false) (hE : s.wasEmpty = false)
    (ha : ∀ x ∈ as, SOC_EMPTY_THRESHOLD_PERCENT < x ∧ x < SOC_FULL_THRESHOLD_PERCENT)
    (hf : SOC_FULL_THRESHOLD_PERCENT ≤ f)
    (hb : ∀ x ∈ bs, SOC_EMPTY_THRESHOLD_PERCENT < x)
    (he : e ≤ SOC_EMPTY_THRESHOLD_PERCENT)
    (hc : ∀ x ∈ cs, SOC_EMPTY_THRESHOLD_PERCENT < x ∧ x < SOC_FULL_THRESHOLD_PERCENT) :
    (runSoH s (as ++ f :: bs)).chargeCycles = s.chargeCycles ∧
    (stepSoH (runSoH s (as ++ f :: bs)) e).chargeCycles = s.chargeCycles + mkRat 1 2 ∧
    (stepSoH (runSoH s (as ++ f :: bs)) e).wasFull = false ∧
    (stepSoH (runSoH s (as ++ f :: bs)) e).wasEmpty = false ∧
    (runSoH s (as ++ f :: bs ++ e :: cs)).chargeCycles = s.chargeCycles + mkRat 1 2 ∧
    (runSoH s (as ++ f :: bs ++ e :: cs)).wasFull = false ∧
    (runSoH s (as ++ f :: bs ++ e :: cs)).wasEmpty = false ∧
    (∀ (t : BMSState) (socs : List ℚ), t.wasEmpty = false →
      (∀ x ∈ socs, SOC_EMPTY_THRESHOLD_PERCENT < x) →
      (runSoH t socs).chargeCycles = t.chargeCycles) := by
  have hsplit1 : runSoH s (as ++ f :: bs) = runSoH (stepSoH (runSoH s as) f) bs := by
    rw [runSoH_append]; rfl
  obtain ⟨ha1, ha2, ha3⟩ := runSoH_mid as s hF hE ha
  have hlow : SOC_EMPTY_THRESHOLD_PERCENT < f :=
    lt_of_lt_of_le (by norm_num [SOC_EMPTY_THRESHOLD_PERCENT, SOC_FULL_THRESHOLD_PERCENT]) hf
  obtain ⟨hf1, hf2, hf3⟩ := stepSoH_notEmpty (runSoH s as) f ha2 hlow
  have hfFull : (stepSoH (runSoH s as) f).wasFull = true := by rw [hf3, if_pos hf]
  obtain ⟨hb1, hb2, hb3⟩ := runSoH_notEmpty bs _ hf1 hb
  have hS1E : (runSoH s (as ++ f :: bs)).wasEmpty = false := by rw [hsplit1]; exact hb1
  have hS1c : (runSoH s (as ++ f :: bs)).chargeCycles = s.chargeCycles := by
    rw [hsplit1, hb2, hf2, ha3]
  have hS1F : (runSoH s (as ++ f :: bs)).wasFull = true := by
    rw [hsplit1]; exact hb3 hfFull
  obtain ⟨he1, he2, he3⟩ := stepSoH_empty_latched _ e hS1F he
  obtain ⟨hc1, hc2, hc3⟩ := runSoH_mid cs _ he2 he3 hc
  have hsplit2 : runSoH s (as ++ f :: bs ++ e :: cs) =
      runSoH (stepSoH (runSoH s (as ++ f :: bs)) e) cs := by
    have hlist : as ++ f :: bs ++ e :: cs = (as ++ f :: bs) ++ e :: cs := by simp
    rw [hlist, runSoH_append]; rfl
  refine ⟨hS1c, by rw [he1, hS1c], he2, he3, ?_, ?_, ?_,
    fun t socs h1 h2 => (runSoH_notEmpty socs t h1 h2).2.1⟩
  · rw [hsplit2, hc3, he1, hS1c]
  · rw [hsplit2]; exact hc1
  · rw [hsplit2]; exact hc2

/-- Witness for C6: the spec's 99 % → 5 % → 50 % scenario from the
constructor state adds exactly one half-cycle and leaves both latches
clear. -/
theorem C6_half_cycle_fires_exactly_once_witness :
    initBMS.wasFull = false ∧ initBMS.wasEmpty = false ∧
    SOC_FULL_THRESHOLD_PERCENT ≤ 99 ∧ (5:ℚ) ≤ SOC_EMPTY_THRESHOLD_PERCENT ∧
    (runSoH initBMS ([] ++ (99:ℚ) :: [] ++ (5:ℚ) :: [50])).chargeCycles =
      initBMS.chargeCycles + mkRat 1 2 ∧
    (runSoH initBMS ([] ++ (99:ℚ) :: [] ++ (5:ℚ) :: [50])).wasFull = false ∧
    (runSoH initBMS ([] ++ (99:ℚ) :: [] ++ (5:ℚ) :: [50])).wasEmpty = false := by
  have h := C6_half_cycle_fires_exactly_once initBMS [] [] [50] 99 5 rfl rfl
    (by simp) (by decide) (by simp) (by decide) (by decide)
  exact ⟨rfl, rfl, by decide, by decide, h.2.2.2.2.1, h.2.2.2.2.2.1, h.2.2.2.2.2.2.1⟩

/-- Claim C8: a `BMS::update` tick sets the charging flag to true when the
fresh pack current exceeds `IDLE_CURRENT_THRESHOLD_A = 0.05`, to false when it
is below `-0.05`, and otherwise leaves the previous tick's flag untouched
(sticky at idle); and every other field the tick computes is independent of
the stored charging flag. -/
theorem C8_charging_flag_sticky_and_frame (newCells : List BatteryCell)
    (packCurrent deltaTime_s : ℚ) (s : BMSState) :
    ((update newCells packCurrent deltaTime_s s).isChargingFlag =
      if packCurrent > IDLE_CURRENT_THRESHOLD_A then true
      else if packCurrent < -IDLE_CURRENT_THRESHOLD_A then false
      else s.isChargingFlag) ∧
    (∀ b : Bool,
      (update newCells packCurrent deltaTime_s { s with isChargingFlag := b }).cells =
        (update newCells packCurrent deltaTime_s s).cells ∧
      (update newCells packCurrent deltaTime_s { s with isChargingFlag := b }).packCurrent =
        (update newCells packCurrent deltaTime_s s).packCurrent ∧
      (update newCells packCurrent deltaTime_s { s with isChargingFlag := b }).accumulatedCharge_mAh =
        (update newCells packCurrent deltaTime_s s).accumulatedCharge_mAh ∧
      (update newCells packCurrent deltaTime_s { s with isChargingFlag := b }).stateOfCharge_percent =
        (update newCells packCurrent deltaTime_s s).stateOfCharge_percent ∧
      (update newCells packCurrent deltaTime_s { s with isChargingFlag := b }).stateOfHealth_percent =
        (update newCells packCurrent deltaTime_s s).stateOfHealth_percent ∧
      (update newCells packCurrent deltaTime_s { s with isChargingFlag := b }).chargeCycles =
        (update newCells packCurrent deltaTime_s s).chargeCycles ∧
      (update newCells packCurrent deltaTime_s { s with isChargingFlag := b }).wasFull =
        (update newCells packCurrent deltaTime_s s).wasFull ∧
      (update newCells packCurrent deltaTime_s { s with isChargingFlag := b }).wasEmpty =
        (update newCells packCurrent deltaTime_s s).wasEmpty ∧
      (update newCells packCurrent deltaTime_s { s with isChargingFlag := b }).currentState =
        (update newCells packCurrent deltaTime_s s).currentState) := by
  constructor
  · simp only [update]
    split_ifs <;> rfl
  · intro b
    simp only [update]
    split_ifs <;>
      exact ⟨rfl, rfl, rfl, rfl, rfl, rfl, rfl, rfl, rfl⟩

/-- Witness for C7: the constructor state has `SoH = 100 = clamp(100 − 0.1·0)`
and an `updateSoH` call from it does not increase the state of health. -/
theorem C7_soh_never_increases_witness :
    initBMS.stateOfHealth_percent = clampQ 0 100 (100 - initBMS.chargeCycles * mkRat 1 10) ∧
    (updateSoH initBMS).stateOfHealth_percent ≤ initBMS.stateOfHealth_percent := by
  have h : initBMS.stateOfHealth_percent = clampQ 0 100 (100 - initBMS.chargeCycles * mkRat 1 10) := by
    norm_num [initBMS, clampQ]
  exact ⟨h, C7_soh_never_increases.2 initBMS h⟩

